import Mathlib

/-!
# A shallow embedding of the it-desk canister

This file embeds `src/src/dfinity_js_backend/src/index.ts` — a
helpdesk/IT-asset-tracking canister written with the azle framework — as
executable Lean definitions, and proves (or refutes) the specification's
claims about it.

Modelling conventions:

* Each `StableBTreeMap` store is an association list `List (String × α)`
  with overwrite-on-insert semantics (`mapGet` / `mapInsert` / `mapValues`).
* The canister's ambient state (the five stores, the uuid generator and the
  wall clock, both of which the spec treats as external collaborators) is a
  `State` record, threaded explicitly: every operation takes its payload and
  the state, and returns an `Except String α` result paired with the
  post-state.
* Candid `nat64` values are JS `BigInt`s at runtime; arithmetic on them is
  arbitrary-precision integer arithmetic, so they are embedded as `Nat` in
  the records and lifted to `Int` where the source mixes in subtraction.
  JS `BigInt` division truncates toward zero, which is `Int.tdiv`.
* `uuidv4()` is, per the spec, an external generator of globally-unique
  opaque strings; it is modelled as an injective function `mintId` of a
  generator counter carried in the state.  `new Date().toISOString()` and
  `Date.now()` read the wall clock, also carried in the state.
* JS strict equality (`===`) between values of different runtime types is
  `false`.  Two places in the source compare values of different runtime
  types; each gets its own explicitly-named comparison function with a
  documentation comment (see `roleStrictEqString` and
  `switchCaseMatchesFreshObjectLiteral`).
-/

namespace ITDesk

/-- `UserRole` Candid variant (`{Admin: null, ITSupport: null, User: null}`). -/
inductive UserRole where
  | Admin : UserRole
  | ITSupport : UserRole
  | User : UserRole
deriving Repr, DecidableEq

/-- `User` record. -/
structure User where
  id : String
  username : String
  role : UserRole
  created_at : String
deriving Repr, DecidableEq

/-- `TicketStatus` Candid variant; each tag carries a `text` payload. -/
inductive TicketStatus where
  | Open : String → TicketStatus
  | InProgress : String → TicketStatus
  | Closed : String → TicketStatus
deriving Repr, DecidableEq

/-- `TicketPriority` Candid variant. -/
inductive TicketPriority where
  | Low : TicketPriority
  | Medium : TicketPriority
  | High : TicketPriority
deriving Repr, DecidableEq

/-- `Ticket` record. -/
structure Ticket where
  id : String
  userId : String
  title : String
  description : String
  status : TicketStatus
  priority : TicketPriority
  created_at : String
  created_by : String
  assigned_to : Option String
deriving Repr, DecidableEq

/-- `ITAsset` record (`purchase_date`, `approx_value`, `depreciation_rate`
are `nat64`). -/
structure ITAsset where
  id : String
  asset_name : String
  asset_type : String
  purchase_date : Nat
  assigned_to : String
  approx_value : Nat
  depreciation_rate : Nat
deriving Repr, DecidableEq

/-- `Comment` record. -/
structure Comment where
  id : String
  ticketId : String
  userId : String
  content : String
  created_at : String
deriving Repr, DecidableEq

/-- `AssetMaintenanceRecord` record. -/
structure AssetMaintenanceRecord where
  id : String
  assetId : String
  maintenanceType : String
  description : String
  cost : Nat
  date : Nat
deriving Repr, DecidableEq

/-- `TicketPayload`. -/
structure TicketPayload where
  userId : String
  title : String
  description : String
  priority : TicketPriority
deriving Repr, DecidableEq

/-- `AssignTicketPayload`. -/
structure AssignTicketPayload where
  ticketId : String
  userId : String
deriving Repr, DecidableEq

/-- `UserPayload`. -/
structure UserPayload where
  username : String
  role : UserRole
deriving Repr, DecidableEq

/-- `ITAssetPayload`. -/
structure ITAssetPayload where
  asset_name : String
  asset_type : String
  purchase_date : Nat
  assigned_to : String
  approx_value : Nat
  depreciation_rate : Nat
deriving Repr, DecidableEq

/-- `CommentPayload`. -/
structure CommentPayload where
  ticketId : String
  userId : String
  content : String
deriving Repr, DecidableEq

/-- `AssetMaintenanceRecordPayload`. -/
structure AssetMaintenanceRecordPayload where
  assetId : String
  maintenanceType : String
  description : String
  cost : Nat
  date : Nat
deriving Repr, DecidableEq

/-- `UpdateTicketStatusPayload`. -/
structure UpdateTicketStatusPayload where
  ticketId : String
  userId : String
  newStatus : TicketStatus
deriving Repr, DecidableEq

/-- `ReportType` Candid variant. -/
inductive ReportType where
  | OpenTickets : ReportType
  | ClosedTickets : ReportType
  | InProgressTickets : ReportType
  | AssetUtilization : ReportType
deriving Repr, DecidableEq

/-- `GenerateReportPayload`. -/
structure GenerateReportPayload where
  reportType : ReportType
deriving Repr, DecidableEq

/-- `StableBTreeMap.get`: association-list lookup. -/
def mapGet {α : Type} (k : String) : List (String × α) → Option α
  | [] => none
  | (k2, v) :: rest => if k2 = k then some v else mapGet k rest

/-- `StableBTreeMap.insert`: overwrite the binding of `k` if present,
otherwise add a new binding. -/
def mapInsert {α : Type} (k : String) (v : α) : List (String × α) → List (String × α)
  | [] => [(k, v)]
  | (k2, v2) :: rest => if k2 = k then (k, v) :: rest else (k2, v2) :: mapInsert k v rest

/-- `StableBTreeMap.values()`: the stored records, as an (order-unspecified)
sequence. -/
def mapValues {α : Type} (m : List (String × α)) : List α :=
  m.map (fun kv => kv.2)

/-- The canister's ambient state: the five stores declared at lines 157-165
of the source, plus the two external collaborators the spec names —
the unique-id generator (`nextId`, consumed by `mintId`) and the wall
clock (`now`, milliseconds since the epoch, read by `Date.now()` /
`new Date()`). -/
structure State where
  userStorage : List (String × User)
  ticketStorage : List (String × Ticket)
  commentStorage : List (String × Comment)
  itAssetStorage : List (String × ITAsset)
  assetMaintenanceRecordStorage : List (String × AssetMaintenanceRecord)
  nextId : Nat
  now : Nat
deriving Repr, DecidableEq

/-- Modelled from the spec: `uuidv4()` is an external collaborator providing
globally-unique opaque strings; any injective, stateful generator is a
faithful model.  We mint the string of `n + 1` copies of `'u'` from the
generator counter `n`, which is injective (distinct counters give strings of
distinct lengths) and never empty. -/
def mintId (n : Nat) : String :=
  String.mk (List.replicate (n + 1) 'u')

/-- Modelled from the spec: `new Date().toISOString()` formats the current
wall-clock time as a string.  No claim depends on the format, only on it
being a function of the clock. -/
def toISOString (ms : Nat) : String :=
  Nat.repr ms

/-- JS strict equality (`===`) between a stored role and a string literal,
as written at lines 173 and 181 of the source
(`userOpt.Some.role === "Admin"`, `userOpt.Some.role === "ITSupport"`).
At runtime the role is the Candid variant value azle decodes it to — a
single-key object such as `{Admin: null}` — and strict equality between an
object and a string is always `false`, whatever the role. -/
def roleStrictEqString (_role : UserRole) (_s : String) : Bool :=
  false

/-- `isAdmin` (lines 168-174). -/
def isAdmin (userId : String) (st : State) : Bool :=
  match mapGet userId st.userStorage with
  | none => false
  | some u => roleStrictEqString u.role "Admin"

/-- `isITSupport` (lines 176-182). -/
def isITSupport (userId : String) (st : State) : Bool :=
  match mapGet userId st.userStorage with
  | none => false
  | some u => roleStrictEqString u.role "ITSupport"

/-- The `ErrorMessages` constants (lines 185-192). -/
def ErrorMessages.USER_NOT_FOUND : String := "User not found."

/-- `ErrorMessages.USERNAME_REQUIRED`. -/
def ErrorMessages.USERNAME_REQUIRED : String := "Username is required."

/-- `ErrorMessages.USERNAME_EXISTS`. -/
def ErrorMessages.USERNAME_EXISTS : String := "Username already exists, try another one."

/-- `createUser` (lines 197-221).  The source scans `userStorage.values()`
with a `for` loop and returns on the first duplicate username; the scan is
embedded as `List.any`. -/
def createUser (payload : UserPayload) (st : State) : Except String User × State :=
  if payload.username == "" then
    (Except.error ErrorMessages.USERNAME_REQUIRED, st)
  else if (mapValues st.userStorage).any (fun u => u.username == payload.username) then
    (Except.error ErrorMessages.USERNAME_EXISTS, st)
  else
    let userId := mintId st.nextId
    let user : User :=
      { id := userId
        username := payload.username
        role := payload.role
        created_at := toISOString st.now }
    (Except.ok user,
      { st with
          userStorage := mapInsert userId user st.userStorage
          nextId := st.nextId + 1 })

/-- `getUserById` (lines 224-230); a query, so the state is returned
unchanged. -/
def getUserById (userId : String) (st : State) : Except String User × State :=
  match mapGet userId st.userStorage with
  | none => (Except.error ErrorMessages.USER_NOT_FOUND, st)
  | some u => (Except.ok u, st)

/-- `getAllUsers` (lines 233-239). -/
def getAllUsers (st : State) : Except String (List User) × State :=
  let users := mapValues st.userStorage
  if users.length == 0 then
    (Except.error "No users found.", st)
  else
    (Except.ok users, st)

/-- `createTicket` (lines 242-278). -/
def createTicket (payload : TicketPayload) (st : State) : Except String Ticket × State :=
  if payload.userId == "" || payload.title == "" || payload.description == "" then
    (Except.error "User ID, title, and description are required.", st)
  else
    match mapGet payload.userId st.userStorage with
    | none => (Except.error ("User with ID " ++ payload.userId ++ " not found."), st)
    | some _ =>
      if !isITSupport payload.userId st && !isAdmin payload.userId st then
        (Except.error "Only IT support and Admins can create tickets.", st)
      else
        let ticketId := mintId st.nextId
        let ticket : Ticket :=
          { id := ticketId
            userId := payload.userId
            title := payload.title
            description := payload.description
            status := TicketStatus.Open "Ticket is open"
            priority := payload.priority
            created_at := toISOString st.now
            created_by := payload.userId
            assigned_to := none }
        (Except.ok ticket,
          { st with
              ticketStorage := mapInsert ticketId ticket st.ticketStorage
              nextId := st.nextId + 1 })

/-- `assignTicket` (lines 281-312). -/
def assignTicket (payload : AssignTicketPayload) (st : State) : Except String Ticket × State :=
  match mapGet payload.ticketId st.ticketStorage with
  | none => (Except.error "Ticket not found.", st)
  | some ticket =>
    match mapGet payload.userId st.userStorage with
    | none => (Except.error ("User with ID " ++ payload.userId ++ " not found."), st)
    | some _ =>
      if !isITSupport payload.userId st then
        (Except.error "Only IT support can assign tickets.", st)
      else
        let updatedTicket : Ticket := { ticket with assigned_to := some payload.userId }
        (Except.ok updatedTicket,
          { st with ticketStorage := mapInsert payload.ticketId updatedTicket st.ticketStorage })

/-- `getTickets` (lines 315-321). -/
def getTickets (st : State) : Except String (List Ticket) × State :=
  let tickets := mapValues st.ticketStorage
  if tickets.length == 0 then
    (Except.error "No tickets found.", st)
  else
    (Except.ok tickets, st)

/-- `getTicketById` (lines 324-330). -/
def getTicketById (ticketId : String) (st : State) : Except String Ticket × State :=
  match mapGet ticketId st.ticketStorage with
  | none => (Except.error ("Ticket with ID " ++ ticketId ++ " not found."), st)
  | some t => (Except.ok t, st)

/-- `addCommentToTicket` (lines 332-353). -/
def addCommentToTicket (payload : CommentPayload) (st : State) :
    Except String Comment × State :=
  match mapGet payload.ticketId st.ticketStorage with
  | none => (Except.error "Ticket not found.", st)
  | some _ =>
    let commentId := mintId st.nextId
    let comment : Comment :=
      { id := commentId
        ticketId := payload.ticketId
        userId := payload.userId
        content := payload.content
        created_at := toISOString st.now }
    (Except.ok comment,
      { st with
          commentStorage := mapInsert commentId comment st.commentStorage
          nextId := st.nextId + 1 })

/-- `getCommentsForTicket` (lines 355-369). -/
def getCommentsForTicket (ticketId : String) (st : State) :
    Except String (List Comment) × State :=
  let ticketComments :=
    (mapValues st.commentStorage).filter (fun c => c.ticketId == ticketId)
  if ticketComments.length == 0 then
    (Except.error "No comments found for this ticket.", st)
  else
    (Except.ok ticketComments, st)

/-- `updateTicketStatus` (lines 371-397).  Note the gate runs before the
user-existence check in this operation. -/
def updateTicketStatus (payload : UpdateTicketStatusPayload) (st : State) :
    Except String Ticket × State :=
  if !isAdmin payload.userId st && !isITSupport payload.userId st then
    (Except.error "Only admins and IT support can update ticket status.", st)
  else
    match mapGet payload.userId st.userStorage with
    | none => (Except.error ("User with ID " ++ payload.userId ++ " not found."), st)
    | some _ =>
      match mapGet payload.ticketId st.ticketStorage with
      | none => (Except.error ("Ticket with ID " ++ payload.ticketId ++ " not found."), st)
      | some ticket =>
        let updatedTicket : Ticket := { ticket with status := payload.newStatus }
        (Except.ok updatedTicket,
          { st with ticketStorage := mapInsert payload.ticketId updatedTicket st.ticketStorage })

/-- `createITAsset` (lines 400-420). -/
def createITAsset (payload : ITAssetPayload) (st : State) : Except String ITAsset × State :=
  if payload.asset_name == "" || payload.asset_type == "" then
    (Except.error "Asset name and type are required.", st)
  else
    match mapGet payload.assigned_to st.userStorage with
    | none => (Except.error ("User with ID " ++ payload.assigned_to ++ " not found."), st)
    | some _ =>
      let assetId := mintId st.nextId
      let asset : ITAsset :=
        { id := assetId
          asset_name := payload.asset_name
          asset_type := payload.asset_type
          purchase_date := payload.purchase_date
          assigned_to := payload.assigned_to
          approx_value := payload.approx_value
          depreciation_rate := payload.depreciation_rate }
      (Except.ok asset,
        { st with
            itAssetStorage := mapInsert assetId asset st.itAssetStorage
            nextId := st.nextId + 1 })

/-- `getITAssets` (lines 423-429). -/
def getITAssets (st : State) : Except String (List ITAsset) × State :=
  let itAssets := mapValues st.itAssetStorage
  if itAssets.length == 0 then
    (Except.error "No IT assets found.", st)
  else
    (Except.ok itAssets, st)

/-- `getITAssetById` (lines 432-438). -/
def getITAssetById (assetId : String) (st : State) : Except String ITAsset × State :=
  match mapGet assetId st.itAssetStorage with
  | none => (Except.error "IT asset not found.", st)
  | some a => (Except.ok a, st)

/-- `addAssetMaintenanceRecord` (lines 440-454). -/
def addAssetMaintenanceRecord (payload : AssetMaintenanceRecordPayload) (st : State) :
    Except String AssetMaintenanceRecord × State :=
  match mapGet payload.assetId st.itAssetStorage with
  | none => (Except.error "Asset not found.", st)
  | some _ =>
    let maintenanceId := mintId st.nextId
    let maintenanceRecord : AssetMaintenanceRecord :=
      { id := maintenanceId
        assetId := payload.assetId
        maintenanceType := payload.maintenanceType
        description := payload.description
        cost := payload.cost
        date := payload.date }
    (Except.ok maintenanceRecord,
      { st with
          assetMaintenanceRecordStorage :=
            mapInsert maintenanceId maintenanceRecord st.assetMaintenanceRecordStorage
          nextId := st.nextId + 1 })

/-- `getAssetMaintenanceHistory` (lines 456-470). -/
def getAssetMaintenanceHistory (assetId : String) (st : State) :
    Except String (List AssetMaintenanceRecord) × State :=
  let assetRecords :=
    (mapValues st.assetMaintenanceRecordStorage).filter (fun r => r.assetId == assetId)
  if assetRecords.length == 0 then
    (Except.error "No maintenance records found for this asset.", st)
  else
    (Except.ok assetRecords, st)

/-- `BigInt(31536000000)` — milliseconds in a year (line 481). -/
def millisecondsPerYear : Int := 31536000000

/-- The `yearsSincePurchase` computation of `calculateAssetValue`
(lines 480-481): `(currentTime - asset.purchase_date) / BigInt(31536000000)`.
JS `BigInt` division truncates toward zero, i.e. `Int.tdiv`. -/
def yearsSincePurchase (currentTime purchase_date : Int) : Int :=
  Int.tdiv (currentTime - purchase_date) millisecondsPerYear

/-- The `depreciatedValue` computation of `calculateAssetValue`
(lines 482-485):
`(asset.approx_value * (BigInt(100) - asset.depreciation_rate * yearsSincePurchase)) / BigInt(100)`. -/
def depreciatedValue (asset : ITAsset) (currentTime : Int) : Int :=
  Int.tdiv ((asset.approx_value : Int) *
    (100 - (asset.depreciation_rate : Int) *
      yearsSincePurchase currentTime (asset.purchase_date : Int))) 100

/-- `calculateAssetValue` (lines 472-488).  All arithmetic is JS `BigInt`
arithmetic: arbitrary-precision integers whose division truncates toward
zero (`Int.tdiv`). -/
def calculateAssetValue (assetId : String) (st : State) : Except String Int × State :=
  match mapGet assetId st.itAssetStorage with
  | none => (Except.error "Asset not found.", st)
  | some asset =>
    let dv := depreciatedValue asset (st.now : Int)
    (Except.ok (if dv > 0 then dv else 0), st)

/-- `JSON.stringify` of a string value. -/
def jsonStr (s : String) : String :=
  "\"" ++ s ++ "\""

/-- `JSON.stringify` of a `TicketStatus` variant value. -/
def stringifyStatus : TicketStatus → String
  | TicketStatus.Open s => "\x7b\"Open\":" ++ jsonStr s ++ "\x7d"
  | TicketStatus.InProgress s => "\x7b\"InProgress\":" ++ jsonStr s ++ "\x7d"
  | TicketStatus.Closed s => "\x7b\"Closed\":" ++ jsonStr s ++ "\x7d"

/-- `JSON.stringify` of a `TicketPriority` variant value. -/
def stringifyPriority : TicketPriority → String
  | TicketPriority.Low => "\x7b\"Low\":null\x7d"
  | TicketPriority.Medium => "\x7b\"Medium\":null\x7d"
  | TicketPriority.High => "\x7b\"High\":null\x7d"

/-- `JSON.stringify` of an azle `Opt(text)` value. -/
def stringifyOptText : Option String → String
  | none => "\x7b\"None\":null\x7d"
  | some s => "\x7b\"Some\":" ++ jsonStr s ++ "\x7d"

/-- `JSON.stringify` of a `Ticket` object, fields in declaration order. -/
def stringifyTicket (t : Ticket) : String :=
  "\x7b\"id\":" ++ jsonStr t.id ++
  ",\"userId\":" ++ jsonStr t.userId ++
  ",\"title\":" ++ jsonStr t.title ++
  ",\"description\":" ++ jsonStr t.description ++
  ",\"status\":" ++ stringifyStatus t.status ++
  ",\"priority\":" ++ stringifyPriority t.priority ++
  ",\"created_at\":" ++ jsonStr t.created_at ++
  ",\"created_by\":" ++ jsonStr t.created_by ++
  ",\"assigned_to\":" ++ stringifyOptText t.assigned_to ++ "\x7d"

/-- `JSON.stringify` of an array: `[a,b,...]`; the empty array is `[]`. -/
def stringifyArray {α : Type} (f : α → String) (l : List α) : String :=
  "[" ++ String.intercalate "," (l.map f) ++ "]"

/-- The asset-utilization projection `{id, name, assigned_to}`
(lines 513-517), serialized. -/
def stringifyAssetUtilization (a : ITAsset) : String :=
  "\x7b\"id\":" ++ jsonStr a.id ++
  ",\"name\":" ++ jsonStr a.asset_name ++
  ",\"assigned_to\":" ++ jsonStr a.assigned_to ++ "\x7d"

/-- `"Open" in ticket.status` (line 499). -/
def TicketStatus.hasOpenTag : TicketStatus → Bool
  | TicketStatus.Open _ => true
  | _ => false

/-- `"Closed" in ticket.status` (line 504). -/
def TicketStatus.hasClosedTag : TicketStatus → Bool
  | TicketStatus.Closed _ => true
  | _ => false

/-- `"InProgress" in ticket.status` (line 509). -/
def TicketStatus.hasInProgressTag : TicketStatus → Bool
  | TicketStatus.InProgress _ => true
  | _ => false

/-- The comparison a JS `switch` performs between `payload.reportType` and a
`case` label, as written at lines 495-519 of the source.  `switch` compares
with strict equality (`===`); every `case` label here is a fresh object
literal (`case { OpenTickets: null }:`), and strict equality between two
distinct objects is reference equality, so the comparison is `false` for
every scrutinee and every arm. -/
def switchCaseMatchesFreshObjectLiteral (_scrutinee : ReportType)
    (_caseLabel : ReportType) : Bool :=
  false

/-- `generateReport` (lines 491-523). -/
def generateReport (payload : GenerateReportPayload) (st : State) :
    Except String String × State :=
  if switchCaseMatchesFreshObjectLiteral payload.reportType ReportType.OpenTickets then
    (Except.ok (stringifyArray stringifyTicket
      ((mapValues st.ticketStorage).filter (fun t => t.status.hasOpenTag))), st)
  else if switchCaseMatchesFreshObjectLiteral payload.reportType ReportType.ClosedTickets then
    (Except.ok (stringifyArray stringifyTicket
      ((mapValues st.ticketStorage).filter (fun t => t.status.hasClosedTag))), st)
  else if switchCaseMatchesFreshObjectLiteral payload.reportType ReportType.InProgressTickets then
    (Except.ok (stringifyArray stringifyTicket
      ((mapValues st.ticketStorage).filter (fun t => t.status.hasInProgressTag))), st)
  else if switchCaseMatchesFreshObjectLiteral payload.reportType ReportType.AssetUtilization then
    (Except.ok (stringifyArray stringifyAssetUtilization (mapValues st.itAssetStorage)), st)
  else
    (Except.error "Invalid report type.", st)

/-- The canister's call surface: one constructor per exported operation,
carrying its argument. -/
inductive Op where
  | createUser : UserPayload → Op
  | getUserById : String → Op
  | getAllUsers : Op
  | createTicket : TicketPayload → Op
  | assignTicket : AssignTicketPayload → Op
  | getTickets : Op
  | getTicketById : String → Op
  | addCommentToTicket : CommentPayload → Op
  | getCommentsForTicket : String → Op
  | updateTicketStatus : UpdateTicketStatusPayload → Op
  | createITAsset : ITAssetPayload → Op
  | getITAssets : Op
  | getITAssetById : String → Op
  | addAssetMaintenanceRecord : AssetMaintenanceRecordPayload → Op
  | getAssetMaintenanceHistory : String → Op
  | calculateAssetValue : String → Op
  | generateReport : GenerateReportPayload → Op

/-- The possible success values of the call surface, wrapped in one type so
all operations can be dispatched uniformly. -/
inductive RetVal where
  | user : User → RetVal
  | users : List User → RetVal
  | ticket : Ticket → RetVal
  | tickets : List Ticket → RetVal
  | comment : Comment → RetVal
  | comments : List Comment → RetVal
  | asset : ITAsset → RetVal
  | assets : List ITAsset → RetVal
  | maintenance : AssetMaintenanceRecord → RetVal
  | maintenances : List AssetMaintenanceRecord → RetVal
  | int : Int → RetVal
  | text : String → RetVal

/-- Uniform dispatcher over the call surface: runs the named operation on
the state and wraps its success value in `RetVal`. -/
def step (op : Op) (st : State) : Except String RetVal × State :=
  match op with
  | Op.createUser p => let r := createUser p st; (r.1.map RetVal.user, r.2)
  | Op.getUserById i => let r := getUserById i st; (r.1.map RetVal.user, r.2)
  | Op.getAllUsers => let r := getAllUsers st; (r.1.map RetVal.users, r.2)
  | Op.createTicket p => let r := createTicket p st; (r.1.map RetVal.ticket, r.2)
  | Op.assignTicket p => let r := assignTicket p st; (r.1.map RetVal.ticket, r.2)
  | Op.getTickets => let r := getTickets st; (r.1.map RetVal.tickets, r.2)
  | Op.getTicketById i => let r := getTicketById i st; (r.1.map RetVal.ticket, r.2)
  | Op.addCommentToTicket p => let r := addCommentToTicket p st; (r.1.map RetVal.comment, r.2)
  | Op.getCommentsForTicket i =>
    let r := getCommentsForTicket i st; (r.1.map RetVal.comments, r.2)
  | Op.updateTicketStatus p => let r := updateTicketStatus p st; (r.1.map RetVal.ticket, r.2)
  | Op.createITAsset p => let r := createITAsset p st; (r.1.map RetVal.asset, r.2)
  | Op.getITAssets => let r := getITAssets st; (r.1.map RetVal.assets, r.2)
  | Op.getITAssetById i => let r := getITAssetById i st; (r.1.map RetVal.asset, r.2)
  | Op.addAssetMaintenanceRecord p =>
    let r := addAssetMaintenanceRecord p st; (r.1.map RetVal.maintenance, r.2)
  | Op.getAssetMaintenanceHistory i =>
    let r := getAssetMaintenanceHistory i st; (r.1.map RetVal.maintenances, r.2)
  | Op.calculateAssetValue i => let r := calculateAssetValue i st; (r.1.map RetVal.int, r.2)
  | Op.generateReport p => let r := generateReport p st; (r.1.map RetVal.text, r.2)

/-- `Except.isOk` as a Bool, for stating success/failure of a call. -/
def exceptIsOk {ε α : Type} : Except ε α → Bool
  | Except.ok _ => true
  | Except.error _ => false

/-- The canister's state at install time: five empty stores, the id
generator at its first counter, an arbitrary clock origin. -/
def emptyState : State :=
  { userStorage := []
    ticketStorage := []
    commentStorage := []
    itAssetStorage := []
    assetMaintenanceRecordStorage := []
    nextId := 0
    now := 0 }

/-! ## Role policy lemmas -/

/-- `isAdmin` is `false` for every user id and every state: either the user
is absent, or the stored variant role is `===`-compared to the string
`"Admin"`. -/
theorem isAdmin_false (userId : String) (st : State) : isAdmin userId st = false := by
  unfold isAdmin
  cases mapGet userId st.userStorage <;> rfl

/-- `isITSupport` is `false` for every user id and every state. -/
theorem isITSupport_false (userId : String) (st : State) : isITSupport userId st = false := by
  unfold isITSupport
  cases mapGet userId st.userStorage <;> rfl

/-- `createTicket` never returns `Ok`: every control path ends in an error,
the last being the role gate, which can never pass. -/
theorem createTicket_not_ok (p : TicketPayload) (st : State) :
    exceptIsOk (createTicket p st).1 = false := by
  unfold createTicket
  split
  · rfl
  · split
    · rfl
    · simp [isITSupport_false, isAdmin_false, exceptIsOk]

/-- `assignTicket` never returns `Ok`. -/
theorem assignTicket_not_ok (p : AssignTicketPayload) (st : State) :
    exceptIsOk (assignTicket p st).1 = false := by
  unfold assignTicket
  split
  · rfl
  · split
    · rfl
    · simp [isITSupport_false, exceptIsOk]

/-- `updateTicketStatus` never returns `Ok`: its gate runs first and always
fails. -/
theorem updateTicketStatus_not_ok (p : UpdateTicketStatusPayload) (st : State) :
    exceptIsOk (updateTicketStatus p st).1 = false := by
  unfold updateTicketStatus
  simp [isITSupport_false, isAdmin_false, exceptIsOk]

/-- `generateReport` reaches the `default` arm of its `switch` on every
call: the `case` labels are fresh object literals, which the `switch`'s
strict-equality comparison never matches. -/
theorem generateReport_run (p : GenerateReportPayload) (st : State) :
    generateReport p st = (Except.error "Invalid report type.", st) := by
  rfl

/-! ## Concrete states used by counterexamples, code-bug evaluations and
witnesses -/

/-- An ITSupport user, as in the spec's scenario 2 (`createUser("bob",
ITSupport)`). -/
def bobUser : User :=
  { id := mintId 0
    username := "bob"
    role := UserRole.ITSupport
    created_at := toISOString 0 }

/-- State holding exactly `bobUser`. -/
def stBob : State :=
  { emptyState with userStorage := [(mintId 0, bobUser)], nextId := 1 }

/-- A role-`User` user, as in the spec's scenario 3 (`createUser("carol",
User)`). -/
def carolUser : User :=
  { id := mintId 0
    username := "carol"
    role := UserRole.User
    created_at := toISOString 0 }

/-- State holding exactly `carolUser`. -/
def stCarol : State :=
  { emptyState with userStorage := [(mintId 0, carolUser)], nextId := 1 }

/-! ## Claim theorems (first batch) -/

/-- C1: the claim says that for a payload with non-empty fields whose
`userId` resolves to an existing ITSupport (or Admin) user, `createTicket`
succeeds with an Open ticket.  The code disagrees: evaluated on the spec's
own scenario (user bob with role ITSupport, payload "Printer broken" /
"No toner" / Low), `createTicket` returns the authorization error, because
`isITSupport` compares the stored variant to a string with `===` and is
always false. -/
theorem createTicket_rejects_itsupport_bob :
    mapGet (mintId 0) stBob.userStorage = some bobUser ∧
    bobUser.role = UserRole.ITSupport ∧
    (createTicket
      { userId := mintId 0
        title := "Printer broken"
        description := "No toner"
        priority := TicketPriority.Low } stBob).1
      = Except.error "Only IT support and Admins can create tickets." :=
  ⟨rfl, rfl, rfl⟩

/-- C2: the claim says `generateReport` returns `Ok` with the serialized
(possibly empty) filtered sequence for each recognized report type, and
fails only for an unrecognized type.  The code disagrees: the `switch`
compares its scrutinee to fresh object literals with strict equality, so no
`case` ever matches and every call — including `OpenTickets` on an empty
store, which the spec says yields `Ok("[]")` — returns
`Err("Invalid report type.")`. -/
theorem generateReport_always_invalid (p : GenerateReportPayload) (st : State) :
    generateReport p st = (Except.error "Invalid report type.", st) :=
  generateReport_run p st

/-- C3: for every user id and every state, `isAdmin` and `isITSupport`
return `false` (the stored variant role is `===`-compared to a string), so
the role gates of `createTicket`, `assignTicket` and `updateTicketStatus`
can never pass: none of the three ever returns `Ok`. -/
theorem roleChecksAlwaysFalse (st : State) (userId : String) (pT : TicketPayload)
    (pA : AssignTicketPayload) (pU : UpdateTicketStatusPayload) :
    isAdmin userId st = false ∧ isITSupport userId st = false ∧
    exceptIsOk (createTicket pT st).1 = false ∧
    exceptIsOk (assignTicket pA st).1 = false ∧
    exceptIsOk (updateTicketStatus pU st).1 = false :=
  ⟨isAdmin_false userId st, isITSupport_false userId st, createTicket_not_ok pT st,
    assignTicket_not_ok pA st, updateTicketStatus_not_ok pU st⟩

/-- C7: the claim quantifies over states in which `assignTicket` succeeds.
No such state exists: `assignTicket` never returns `Ok`, for any payload and
any state, because its `isITSupport` gate is always false — so the spec's
scenario 4 (`assignTicket(T.id, U1.id)` → Ok) is unreachable and the
idempotent-overwrite property has an unsatisfiable premise. -/
theorem assignTicket_never_succeeds (st : State) (p : AssignTicketPayload) :
    exceptIsOk (assignTicket p st).1 = false :=
  assignTicket_not_ok p st

/-- C8 counterexample: the claim says `createTicket` with a role-`User`
caller fails with the authorization error *regardless of the validity of
the other payload fields*.  It does not: with carol (role `User`) as caller
and an empty `title`, the validation check runs first and the call fails
with the required-fields error, not the authorization error. -/
theorem createTicket_roleUser_validation_first :
    mapGet (mintId 0) stCarol.userStorage = some carolUser ∧
    carolUser.role = UserRole.User ∧
    (createTicket
      { userId := mintId 0
        title := ""
        description := "y"
        priority := TicketPriority.Low } stCarol).1
      = Except.error "User ID, title, and description are required." ∧
    "User ID, title, and description are required."
      ≠ "Only IT support and Admins can create tickets." :=
  ⟨rfl, rfl, rfl, by decide⟩

/-- C8 (amended): for every payload whose `userId`, `title` and
`description` are all non-empty and whose `userId` resolves to an existing
User with role `User`, `createTicket` fails with the authorization error. -/
theorem createTicket_roleUser_auth_error (st : State) (p : TicketPayload) (u : User)
    (h1 : p.userId ≠ "") (h2 : p.title ≠ "") (h3 : p.description ≠ "")
    (h4 : mapGet p.userId st.userStorage = some u) (_h5 : u.role = UserRole.User) :
    (createTicket p st).1 = Except.error "Only IT support and Admins can create tickets." := by
  unfold createTicket
  simp [h1, h2, h3, h4, isITSupport_false, isAdmin_false]

/-- Witness for the amended C8: the spec's scenario 3
(`createTicket(U2.id, "x", "y", Low)` with carol of role `User`). -/
theorem createTicket_roleUser_auth_error_spot :
    (createTicket
      { userId := mintId 0
        title := "x"
        description := "y"
        priority := TicketPriority.Low } stCarol).1
      = Except.error "Only IT support and Admins can create tickets." :=
  createTicket_roleUser_auth_error stCarol _ carolUser (by decide) (by decide) (by decide)
    rfl rfl

/-- An asset purchased two years after the current clock time, with a 20%
depreciation rate and approximate value 1000. -/
def futureAsset : ITAsset :=
  { id := mintId 0
    asset_name := "Laptop"
    asset_type := "Hardware"
    purchase_date := 63072000000
    assigned_to := mintId 1
    approx_value := 1000
    depreciation_rate := 20 }

/-- State holding exactly `futureAsset`, with the clock at 0. -/
def stFuture : State :=
  { emptyState with itAssetStorage := [(mintId 0, futureAsset)], nextId := 2 }

/-- C10: a purchase date more than one year in the future makes
`yearsSincePurchase` negative, which drives the bracket above 100 and the
returned value above `approx_value` — there is no upper clamp.  Concretely:
purchase two years ahead, rate 20, value 1000 gives
`1000 * (100 - 20 * (-2)) / 100 = 1400 > 1000`. -/
theorem futurePurchaseInflatesValue :
    (futureAsset.purchase_date : Int) > (stFuture.now : Int) + millisecondsPerYear ∧
    futureAsset.depreciation_rate ≠ 0 ∧
    (calculateAssetValue (mintId 0) stFuture).1 = Except.ok 1400 ∧
    (1400 : Int) > (futureAsset.approx_value : Int) :=
  ⟨by decide, by decide, rfl, by decide⟩

/-! ## Atomicity on error: per-operation state lemmas -/

/-- `exceptIsOk` commutes with `Except.map`. -/
theorem exceptIsOk_map {ε α β : Type} (f : α → β) (e : Except ε α) :
    exceptIsOk (e.map f) = exceptIsOk e := by
  cases e <;> rfl

/-- `createUser` leaves the state unchanged when it fails. -/
theorem createUser_err_st (p : UserPayload) (st : State)
    (h : exceptIsOk (createUser p st).1 = false) : (createUser p st).2 = st := by
  unfold createUser at h ⊢
  split at h
  next hc => simp [hc]
  next hc =>
    split at h
    next hc2 => simp [hc, hc2]
    next => simp [exceptIsOk] at h

/-- `createTicket` leaves the state unchanged when it fails; since it always
fails, it never modifies the state at all. -/
theorem createTicket_err_st (p : TicketPayload) (st : State) :
    (createTicket p st).2 = st := by
  unfold createTicket
  split
  · rfl
  · split
    · rfl
    · simp [isITSupport_false, isAdmin_false]

/-- `assignTicket` leaves the state unchanged when it fails; since it always
fails, it never modifies the state at all. -/
theorem assignTicket_err_st (p : AssignTicketPayload) (st : State) :
    (assignTicket p st).2 = st := by
  unfold assignTicket
  split
  · rfl
  · split
    · rfl
    · simp [isITSupport_false]

/-- `updateTicketStatus` leaves the state unchanged when it fails; since it
always fails, it never modifies the state at all. -/
theorem updateTicketStatus_err_st (p : UpdateTicketStatusPayload) (st : State) :
    (updateTicketStatus p st).2 = st := by
  unfold updateTicketStatus
  simp [isITSupport_false, isAdmin_false]

/-- `addCommentToTicket` leaves the state unchanged when it fails. -/
theorem addCommentToTicket_err_st (p : CommentPayload) (st : State)
    (h : exceptIsOk (addCommentToTicket p st).1 = false) :
    (addCommentToTicket p st).2 = st := by
  unfold addCommentToTicket at h ⊢
  split at h
  · rfl
  · simp [exceptIsOk] at h

/-- `createITAsset` leaves the state unchanged when it fails. -/
theorem createITAsset_err_st (p : ITAssetPayload) (st : State)
    (h : exceptIsOk (createITAsset p st).1 = false) : (createITAsset p st).2 = st := by
  unfold createITAsset at h ⊢
  split at h
  next hc => simp [hc]
  next hc =>
    split at h
    · simp [hc]
    · simp [exceptIsOk] at h

/-- `addAssetMaintenanceRecord` leaves the state unchanged when it fails. -/
theorem addAssetMaintenanceRecord_err_st (p : AssetMaintenanceRecordPayload) (st : State)
    (h : exceptIsOk (addAssetMaintenanceRecord p st).1 = false) :
    (addAssetMaintenanceRecord p st).2 = st := by
  unfold addAssetMaintenanceRecord at h ⊢
  split at h
  · rfl
  · simp [exceptIsOk] at h

/-- `getUserById` is a query: the state is returned unchanged. -/
theorem getUserById_st (i : String) (st : State) : (getUserById i st).2 = st := by
  unfold getUserById
  split <;> rfl

/-- `getAllUsers` is a query: the state is returned unchanged. -/
theorem getAllUsers_st (st : State) : (getAllUsers st).2 = st := by
  unfold getAllUsers
  dsimp only
  split <;> rfl

/-- `getTickets` is a query: the state is returned unchanged. -/
theorem getTickets_st (st : State) : (getTickets st).2 = st := by
  unfold getTickets
  dsimp only
  split <;> rfl

/-- `getTicketById` is a query: the state is returned unchanged. -/
theorem getTicketById_st (i : String) (st : State) : (getTicketById i st).2 = st := by
  unfold getTicketById
  split <;> rfl

/-- `getCommentsForTicket` is a query: the state is returned unchanged. -/
theorem getCommentsForTicket_st (i : String) (st : State) :
    (getCommentsForTicket i st).2 = st := by
  unfold getCommentsForTicket
  dsimp only
  split <;> rfl

/-- `getITAssets` is a query: the state is returned unchanged. -/
theorem getITAssets_st (st : State) : (getITAssets st).2 = st := by
  unfold getITAssets
  dsimp only
  split <;> rfl

/-- `getITAssetById` is a query: the state is returned unchanged. -/
theorem getITAssetById_st (i : String) (st : State) : (getITAssetById i st).2 = st := by
  unfold getITAssetById
  split <;> rfl

/-- `getAssetMaintenanceHistory` is a query: the state is returned
unchanged. -/
theorem getAssetMaintenanceHistory_st (i : String) (st : State) :
    (getAssetMaintenanceHistory i st).2 = st := by
  unfold getAssetMaintenanceHistory
  dsimp only
  split <;> rfl

/-- `calculateAssetValue` is a query: the state is returned unchanged. -/
theorem calculateAssetValue_st (i : String) (st : State) :
    (calculateAssetValue i st).2 = st := by
  unfold calculateAssetValue
  split <;> rfl

/-- C4: atomicity on error.  For every operation of the call surface and
every input, if the call returns an error then the post-state equals the
pre-state: every error return happens before any insert, and no operation
performs a partial write. -/
theorem errorImpliesNoWrite (op : Op) (st : State)
    (h : exceptIsOk (step op st).1 = false) : (step op st).2 = st := by
  cases op with
  | createUser p =>
    simp only [step, exceptIsOk_map] at h ⊢
    exact createUser_err_st p st h
  | getUserById i => simp only [step]; exact getUserById_st i st
  | getAllUsers => simp only [step]; exact getAllUsers_st st
  | createTicket p => simp only [step]; exact createTicket_err_st p st
  | assignTicket p => simp only [step]; exact assignTicket_err_st p st
  | getTickets => simp only [step]; exact getTickets_st st
  | getTicketById i => simp only [step]; exact getTicketById_st i st
  | addCommentToTicket p =>
    simp only [step, exceptIsOk_map] at h ⊢
    exact addCommentToTicket_err_st p st h
  | getCommentsForTicket i => simp only [step]; exact getCommentsForTicket_st i st
  | updateTicketStatus p => simp only [step]; exact updateTicketStatus_err_st p st
  | createITAsset p =>
    simp only [step, exceptIsOk_map] at h ⊢
    exact createITAsset_err_st p st h
  | getITAssets => simp only [step]; exact getITAssets_st st
  | getITAssetById i => simp only [step]; exact getITAssetById_st i st
  | addAssetMaintenanceRecord p =>
    simp only [step, exceptIsOk_map] at h ⊢
    exact addAssetMaintenanceRecord_err_st p st h
  | getAssetMaintenanceHistory i => simp only [step]; exact getAssetMaintenanceHistory_st i st
  | calculateAssetValue i => simp only [step]; exact calculateAssetValue_st i st
  | generateReport p => simp only [step, generateReport_run]

/-- Witness for C4: `createUser` with an empty username on the install
state fails, and the state is untouched. -/
theorem errorImpliesNoWrite_spot :
    exceptIsOk (step (Op.createUser { username := "", role := UserRole.User }) emptyState).1
      = false ∧
    (step (Op.createUser { username := "", role := UserRole.User }) emptyState).2
      = emptyState :=
  ⟨rfl, errorImpliesNoWrite (Op.createUser { username := "", role := UserRole.User })
    emptyState rfl⟩

/-! ## Depreciation floor -/

/-- Truncating division of a nonpositive integer by a nonnegative one is
nonpositive. -/
theorem tdiv_nonpos_of_nonpos_of_nonneg {a b : Int} (ha : a ≤ 0) (hb : 0 ≤ b) :
    Int.tdiv a b ≤ 0 := by
  have h1 : 0 ≤ -a := by omega
  have h2 : 0 ≤ Int.tdiv (-a) b := Int.tdiv_nonneg h1 hb
  have h3 : Int.tdiv (-a) b = -Int.tdiv a b := Int.neg_tdiv a b
  omega

/-- C6: `calculateAssetValue` computes
`years = (now - purchase_date) / msPerYear` and
`depreciated = approx_value * (100 - depreciation_rate * years) / 100` in
truncating integer arithmetic and clamps the result at zero: whenever
`depreciation_rate * years >= 100` it returns exactly zero, and whatever it
returns is never negative. -/
theorem depreciationFloor (st : State) (assetId : String) (asset : ITAsset)
    (hget : mapGet assetId st.itAssetStorage = some asset)
    (hfloor : 100 ≤ (asset.depreciation_rate : Int) *
      yearsSincePurchase (st.now : Int) (asset.purchase_date : Int)) :
    (calculateAssetValue assetId st).1 = Except.ok 0 ∧
    ∀ v : Int, (calculateAssetValue assetId st).1 = Except.ok v → 0 ≤ v := by
  have hdv : depreciatedValue asset (st.now : Int) ≤ 0 := by
    unfold depreciatedValue
    have hbr : 100 - (asset.depreciation_rate : Int) *
        yearsSincePurchase (st.now : Int) (asset.purchase_date : Int) ≤ 0 := by omega
    have hval : (0 : Int) ≤ (asset.approx_value : Int) := Int.natCast_nonneg _
    have hmul : (asset.approx_value : Int) *
        (100 - (asset.depreciation_rate : Int) *
          yearsSincePurchase (st.now : Int) (asset.purchase_date : Int)) ≤
        (asset.approx_value : Int) * 0 := by
      exact mul_le_mul_of_nonneg_left hbr hval
    rw [mul_zero] at hmul
    exact tdiv_nonpos_of_nonpos_of_nonneg hmul (by omega)
  unfold calculateAssetValue
  rw [hget]
  dsimp only
  constructor
  · have hnot : ¬ depreciatedValue asset (st.now : Int) > 0 := by omega
    simp [hnot]
  · intro v hv
    by_cases hpos : depreciatedValue asset (st.now : Int) > 0
    · rw [if_pos hpos] at hv
      injection hv with h1
      omega
    · rw [if_neg hpos] at hv
      injection hv with h1
      omega

/-- An asset bought at clock time 0 with value 1000 and rate 20 (the spec's
scenario 5). -/
def laptopAsset : ITAsset :=
  { id := mintId 0
    asset_name := "Laptop"
    asset_type := "Hardware"
    purchase_date := 0
    assigned_to := mintId 1
    approx_value := 1000
    depreciation_rate := 20 }

/-- State holding exactly `laptopAsset`, with the clock five years after
the purchase. -/
def stLaptop : State :=
  { emptyState with
      itAssetStorage := [(mintId 0, laptopAsset)]
      nextId := 2
      now := 157680000000 }

/-- Witness for C6: five years at a 20% yearly rate give
`20 * 5 = 100 ≥ 100`, and the returned value is exactly zero. -/
theorem depreciationFloor_spot :
    mapGet (mintId 0) stLaptop.itAssetStorage = some laptopAsset ∧
    100 ≤ (laptopAsset.depreciation_rate : Int) *
      yearsSincePurchase (stLaptop.now : Int) (laptopAsset.purchase_date : Int) ∧
    (calculateAssetValue (mintId 0) stLaptop).1 = Except.ok 0 :=
  ⟨rfl, by decide, (depreciationFloor stLaptop (mintId 0) laptopAsset rfl (by decide)).1⟩

/-! ## Comment association -/

/-- C9: `getCommentsForTicket t` returns, when it succeeds, exactly the
stored comments whose `ticketId` equals `t` (membership characterization),
and it fails with the not-found error precisely when no stored comment has
that `ticketId` — whether or not the ticket itself exists. -/
theorem getCommentsForTicket_exact (st : State) (t : String) :
    (∀ l, (getCommentsForTicket t st).1 = Except.ok l →
      ∀ c, c ∈ l ↔ (c ∈ mapValues st.commentStorage ∧ c.ticketId = t)) ∧
    ((getCommentsForTicket t st).1 = Except.error "No comments found for this ticket." ↔
      ∀ c ∈ mapValues st.commentStorage, c.ticketId ≠ t) := by
  unfold getCommentsForTicket
  dsimp only
  by_cases hE :
      (((mapValues st.commentStorage).filter (fun c => c.ticketId == t)).length == 0) = true
  · have hnil : (mapValues st.commentStorage).filter (fun c => c.ticketId == t) = [] := by
      simpa [List.length_eq_zero] using hE
    rw [if_pos hE]
    constructor
    · intro l hl
      exact absurd hl (by simp)
    · constructor
      · intro _ c hc hct
        have : c ∈ (mapValues st.commentStorage).filter (fun c => c.ticketId == t) := by
          rw [List.mem_filter]
          exact ⟨hc, by simp [hct]⟩
        rw [hnil] at this
        simp at this
      · intro _
        rfl
  · rw [if_neg hE]
    constructor
    · intro l hl c
      have hlF : l = (mapValues st.commentStorage).filter (fun c => c.ticketId == t) := by
        injection hl with h1
        exact h1.symm
      rw [hlF, List.mem_filter]
      simp
    · constructor
      · intro h
        exact absurd h (by simp)
      · intro hall
        exfalso
        apply hE
        have hnil : (mapValues st.commentStorage).filter (fun c => c.ticketId == t) = [] := by
          rw [List.filter_eq_nil_iff]
          intro c hc
          simp [hall c hc]
        simp [hnil]

/-- A comment on ticket `t1`. -/
def commentOne : Comment :=
  { id := mintId 0
    ticketId := "t1"
    userId := "u1"
    content := "hello"
    created_at := toISOString 0 }

/-- A comment on ticket `t2`. -/
def commentTwo : Comment :=
  { id := mintId 1
    ticketId := "t2"
    userId := "u1"
    content := "world"
    created_at := toISOString 0 }

/-- State holding exactly `commentOne` and `commentTwo`. -/
def stComments : State :=
  { emptyState with
      commentStorage := [(mintId 0, commentOne), (mintId 1, commentTwo)]
      nextId := 2 }

/-- Witness for C9: on a store with one comment on `t1` and one on `t2`,
querying `t1` returns a list containing exactly the `t1` comment, and
querying the unknown `t9` fails with the not-found error. -/
theorem getCommentsForTicket_exact_spot :
    (commentOne ∈ mapValues stComments.commentStorage ∧ commentOne.ticketId = "t1") ∧
    (getCommentsForTicket "t9" stComments).1
      = Except.error "No comments found for this ticket." :=
  ⟨((getCommentsForTicket_exact stComments "t1").1 [commentOne] rfl commentOne).mp
      (by simp),
    ((getCommentsForTicket_exact stComments "t9").2).mpr (by decide)⟩

/-! ## Username uniqueness -/

/-- The usernames currently stored, in store order. -/
def usernames (st : State) : List String :=
  (mapValues st.userStorage).map User.username

/-- Every key of the User store was minted by the id generator at an
earlier counter value.  This is the reachable-state invariant that captures
the spec's "identifiers are opaque, globally-unique strings minted at
creation time; none are reused". -/
def UserKeysMinted (st : State) : Prop :=
  ∀ k ∈ st.userStorage.map Prod.fst, ∃ m, m < st.nextId ∧ k = mintId m

/-- A sequence of `createUser` calls, threading the state; returns the
final state and the list of successfully created Users in call order. -/
def runCreateUsers : List UserPayload → State → State × List User
  | [], st => (st, [])
  | p :: ps, st =>
    match createUser p st with
    | (Except.ok u, st2) => ((runCreateUsers ps st2).1, u :: (runCreateUsers ps st2).2)
    | (Except.error _, st2) => runCreateUsers ps st2

/-- The id generator never mints the same string twice. -/
theorem mintId_inj {a b : Nat} (h : mintId a = mintId b) : a = b := by
  unfold mintId at h
  have hd : List.replicate (a + 1) 'u' = List.replicate (b + 1) 'u' := by
    injection h
  have hl := congrArg List.length hd
  simp at hl
  omega

/-- A failing `createUser` returns the state unchanged. -/
theorem createUser_error_shape (p : UserPayload) (st : State) (e : String) (st2 : State)
    (hE : createUser p st = (Except.error e, st2)) : st2 = st := by
  unfold createUser at hE
  split at hE
  · exact (Prod.mk.injEq _ _ _ _ ▸ hE).2.symm
  · split at hE
    · exact (Prod.mk.injEq _ _ _ _ ▸ hE).2.symm
    · simp at hE

/-- A succeeding `createUser` returns a User carrying the payload's
username, which no stored User carried, and inserts it at the freshly
minted key, bumping the generator. -/
theorem createUser_ok_shape (p : UserPayload) (st : State) (u : User) (st2 : State)
    (hE : createUser p st = (Except.ok u, st2)) :
    u.username = p.username ∧
    (∀ w ∈ mapValues st.userStorage, w.username ≠ p.username) ∧
    st2.userStorage = mapInsert (mintId st.nextId) u st.userStorage ∧
    st2.nextId = st.nextId + 1 := by
  unfold createUser at hE
  split at hE
  · simp at hE
  next hc =>
    split at hE
    · simp at hE
    next hc2 =>
      rw [Prod.mk.injEq] at hE
      obtain ⟨h1, h2⟩ := hE
      injection h1 with h1
      subst h1
      subst h2
      refine ⟨rfl, ?_, rfl, rfl⟩
      intro w hw
      simp [List.any_eq_true] at hc2
      exact hc2 w hw

/-- Inserting at a key absent from the map appends the value to the value
sequence. -/
theorem mapInsert_values_fresh {α : Type} (k : String) (v : α) (m : List (String × α))
    (h : ∀ kv ∈ m, kv.1 ≠ k) : mapValues (mapInsert k v m) = mapValues m ++ [v] := by
  induction m with
  | nil => rfl
  | cons kv rest ih =>
    have hk : kv.1 ≠ k := h kv (List.mem_cons_self kv rest)
    have ih2 := ih (fun x hx => h x (List.mem_cons_of_mem kv hx))
    unfold mapInsert
    rw [if_neg hk]
    simp only [mapValues, List.map_cons, List.cons_append] at ih2 ⊢
    rw [ih2]

/-- Every key of `mapInsert k v m` is `k` or a key of `m`. -/
theorem mapInsert_keys {α : Type} (k k2 : String) (v : α) (m : List (String × α))
    (h : k2 ∈ (mapInsert k v m).map Prod.fst) : k2 = k ∨ k2 ∈ m.map Prod.fst := by
  induction m with
  | nil =>
    unfold mapInsert at h
    simp at h
    exact Or.inl h
  | cons kv rest ih =>
    unfold mapInsert at h
    by_cases hk : kv.1 = k
    · rw [if_pos hk] at h
      simp at h
      rcases h with h | h
      · exact Or.inl h
      · exact Or.inr (by simp [h])
    · rw [if_neg hk] at h
      simp at h
      rcases h with h | h
      · exact Or.inr (by simp [h])
      · rcases ih (by simpa using h) with h2 | h2
        · exact Or.inl h2
        · exact Or.inr (by simp; right; simpa using h2)

/-- Under the minted-keys invariant, the next minted key is fresh. -/
theorem minted_fresh (st : State) (hm : UserKeysMinted st) :
    ∀ kv ∈ st.userStorage, kv.1 ≠ mintId st.nextId := by
  intro kv hkv heq
  obtain ⟨m, hlt, hk⟩ := hm kv.1 (List.mem_map_of_mem Prod.fst hkv)
  rw [hk] at heq
  have := mintId_inj heq
  omega

/-- `createUser` preserves the minted-keys invariant. -/
theorem createUser_minted (p : UserPayload) (st : State) (r : Except String User)
    (st2 : State) (hE : createUser p st = (r, st2)) (hm : UserKeysMinted st) :
    UserKeysMinted st2 := by
  cases r with
  | error e =>
    rw [createUser_error_shape p st e st2 hE]
    exact hm
  | ok u =>
    obtain ⟨-, -, hstore, hnext⟩ := createUser_ok_shape p st u st2 hE
    intro k hk
    rw [hstore] at hk
    rcases mapInsert_keys _ _ _ _ hk with h | h
    · exact ⟨st.nextId, by omega, h⟩
    · obtain ⟨m, hlt, hmk⟩ := hm k h
      exact ⟨m, by omega, hmk⟩

/-- A succeeding `createUser` appends a username that was not stored
before. -/
theorem createUser_ok_usernames (p : UserPayload) (st : State) (u : User) (st2 : State)
    (hE : createUser p st = (Except.ok u, st2)) (hm : UserKeysMinted st) :
    usernames st2 = usernames st ++ [u.username] ∧ u.username ∉ usernames st := by
  obtain ⟨hu, hfresh, hstore, -⟩ := createUser_ok_shape p st u st2 hE
  constructor
  · rw [usernames, hstore, mapInsert_values_fresh _ _ _ (minted_fresh st hm)]
    simp [usernames]
  · intro hmem
    obtain ⟨w, hw, hwe⟩ := List.mem_map.mp hmem
    exact hfresh w hw (by rw [hwe, hu])

/-- Over any sequence of `createUser` calls from a state with minted keys
and pairwise-distinct stored usernames, the successfully created Users
carry pairwise-distinct usernames, none of which was stored initially. -/
theorem runCreateUsers_distinct (ps : List UserPayload) (st : State)
    (hm : UserKeysMinted st) (hp : (usernames st).Pairwise (· ≠ ·)) :
    (runCreateUsers ps st).2.Pairwise (fun a b => a.username ≠ b.username) ∧
    ∀ u ∈ (runCreateUsers ps st).2, u.username ∉ usernames st := by
  induction ps generalizing st with
  | nil => simp [runCreateUsers]
  | cons p ps ih =>
    rcases hE : createUser p st with ⟨r, st2⟩
    cases r with
    | error e =>
      have hst : st2 = st := createUser_error_shape p st e st2 hE
      have hrun : runCreateUsers (p :: ps) st = runCreateUsers ps st := by
        show (match createUser p st with
          | (Except.ok u, st2) => ((runCreateUsers ps st2).1, u :: (runCreateUsers ps st2).2)
          | (Except.error _, st2) => runCreateUsers ps st2) = runCreateUsers ps st
        rw [hE, hst]
      rw [hrun]
      exact ih st hm hp
    | ok u =>
      have hrun : runCreateUsers (p :: ps) st =
          ((runCreateUsers ps st2).1, u :: (runCreateUsers ps st2).2) := by
        show (match createUser p st with
          | (Except.ok u, st2) => ((runCreateUsers ps st2).1, u :: (runCreateUsers ps st2).2)
          | (Except.error _, st2) => runCreateUsers ps st2) =
          ((runCreateUsers ps st2).1, u :: (runCreateUsers ps st2).2)
        rw [hE]
      obtain ⟨hnames, hnotmem⟩ := createUser_ok_usernames p st u st2 hE hm
      have hm2 : UserKeysMinted st2 := createUser_minted p st _ st2 hE hm
      have hp2 : (usernames st2).Pairwise (· ≠ ·) := by
        rw [hnames, List.pairwise_append]
        refine ⟨hp, List.pairwise_singleton _ _, ?_⟩
        intro a ha b hb
        simp at hb
        rw [hb]
        intro hEq
        exact hnotmem (hEq ▸ ha)
      obtain ⟨ih1, ih2⟩ := ih st2 hm2 hp2
      rw [hrun]
      constructor
      · refine List.Pairwise.cons ?_ ih1
        intro v hv hEq
        apply ih2 v hv
        rw [hnames, ← hEq]
        simp
      · intro v hv
        rcases List.mem_cons.mp hv with h | h
        · rw [h]
          exact hnotmem
        · intro hmem
          exact ih2 v h (by rw [hnames]; exact List.mem_append_left _ hmem)

/-- C5: `createUser` fails with the required-username error when the
username is empty, fails with the already-exists error when the username is
stored, and over every sequence of `createUser` calls from a well-formed
state no two succeeding calls produce Users with equal usernames. -/
theorem createUser_username_uniqueness (st : State) (p : UserPayload)
    (ps : List UserPayload) (hm : UserKeysMinted st)
    (hp : (usernames st).Pairwise (· ≠ ·)) :
    (p.username = "" →
      (createUser p st).1 = Except.error ErrorMessages.USERNAME_REQUIRED) ∧
    (p.username ≠ "" → p.username ∈ usernames st →
      (createUser p st).1 = Except.error ErrorMessages.USERNAME_EXISTS) ∧
    (runCreateUsers ps st).2.Pairwise (fun a b => a.username ≠ b.username) := by
  refine ⟨?_, ?_, (runCreateUsers_distinct ps st hm hp).1⟩
  · intro h
    unfold createUser
    simp [h]
  · intro h1 h2
    have hany : (mapValues st.userStorage).any (fun u => u.username == p.username) = true := by
      rw [List.any_eq_true]
      obtain ⟨w, hw, hwe⟩ := List.mem_map.mp h2
      exact ⟨w, hw, by simp [hwe]⟩
    unfold createUser
    simp [h1, hany]

/-- An Admin user, as in the spec's scenario 1 (`createUser("alice",
Admin)`). -/
def aliceUser : User :=
  { id := mintId 0
    username := "alice"
    role := UserRole.Admin
    created_at := toISOString 0 }

/-- State holding exactly `aliceUser`. -/
def stAlice : State :=
  { emptyState with userStorage := [(mintId 0, aliceUser)], nextId := 1 }

/-- Witness for C5: with alice stored, an empty username is rejected, a
duplicate "alice" is rejected (the spec's scenario 1), and a run that tries
to create "bob" twice yields Users with pairwise-distinct usernames. -/
theorem createUser_username_uniqueness_spot :
    (createUser { username := "", role := UserRole.User } stAlice).1
      = Except.error ErrorMessages.USERNAME_REQUIRED ∧
    (createUser { username := "alice", role := UserRole.User } stAlice).1
      = Except.error ErrorMessages.USERNAME_EXISTS ∧
    (runCreateUsers [{ username := "bob", role := UserRole.ITSupport },
        { username := "bob", role := UserRole.Admin }] stAlice).2.Pairwise
      (fun a b => a.username ≠ b.username) := by
  have hm : UserKeysMinted stAlice := by
    intro k hk
    refine ⟨0, Nat.zero_lt_one, ?_⟩
    simpa [stAlice, emptyState] using hk
  have hp : (usernames stAlice).Pairwise (· ≠ ·) := by
    simp [usernames, stAlice, emptyState, mapValues]
  refine ⟨(createUser_username_uniqueness stAlice
      { username := "", role := UserRole.User } [] hm hp).1 rfl,
    (createUser_username_uniqueness stAlice
      { username := "alice", role := UserRole.User } [] hm hp).2.1 (by decide) ?_,
    (createUser_username_uniqueness stAlice
      { username := "", role := UserRole.User }
      [{ username := "bob", role := UserRole.ITSupport },
        { username := "bob", role := UserRole.Admin }] hm hp).2.2⟩
  simp [usernames, stAlice, emptyState, mapValues, aliceUser]

end ITDesk
